import Mathlib

/-!
# BookBrowser: process bootstrap and shutdown (`bookbrowser.go`)

A shallow embedding of `main` of `bookbrowser.go`.  The program is a sequence of
calls into the operating system and into the `server`, `sigusr` and `util`
packages, so it is embedded as explicit state passing:

* the file system is a list of nodes, threaded through the calls that change it
  (`ioutil.TempDir`, `os.Mkdir`, `os.RemoveAll`); no other process changes it
  during the run;
* everything the environment decides (command-line flags, results of `os.Getwd`,
  `ioutil.TempDir`, `filepath.Abs`, stat failures, the size of the catalog after
  indexing, the result of `Serve`) is a field of `World`;
* every observable call is recorded, in order, in a trace of `Event`s;
* the goroutine started at line 98 is the function `terminationAction`, applied
  to the values its closure captures (`noRemoveTempDir`, `tempdir`).

`main` models the main goroutine alone, from line 23 to the end of the action;
`terminationAction` models the goroutine body from the receive on `sigs` to
`os.Exit(0)`, run to completion; `terminatedRun` is a run in which a signal is
received once the handler is installed.  The parsing of the command line by
`cli` and the internals of `server`, `sigusr` and `util` are outside the model:
their results are fields of `World`.
-/

set_option linter.unusedTactic false

namespace BookBrowser

/-! ## File system -/

/-- One entry of the file system: a resolved path and whether it is a directory. -/
structure Node where
  path : String
  isDir : Bool
deriving DecidableEq, Repr

/-- The file system: the entries that exist, keyed by resolved path. -/
abbrev FS := List Node

/-- Whether an entry exists at the resolved path `p`. -/
def FS.has (fs : FS) (p : String) : Bool :=
  fs.any (fun n => n.path == p)

/-- The entry at the resolved path `p`, if any. -/
def FS.lookup (fs : FS) (p : String) : Option Node :=
  fs.find? (fun n => n.path == p)

/-- Whether `q` is the path `p` itself or lies beneath the directory `p`. -/
def beneath (p q : String) : Bool :=
  q == p || (p ++ "/").toList.isPrefixOf q.toList

/-- The file system after a successful `os.RemoveAll(p)`: `p` and all it contains are gone. -/
def FS.removeAll (fs : FS) (p : String) : FS :=
  fs.filter (fun n => !beneath p n.path)

/-- The file system after a successful directory creation at `p`. -/
def FS.addDir (fs : FS) (p : String) : FS :=
  fs ++ [{ path := p, isDir := true }]

/-! ## Results of library calls -/

/-- The error of a failed `os.Stat`: the one `os.IsNotExist` recognises, or any other
(permission denied, not a directory, ...). -/
inductive StatErr where
  | notExist
  | other
deriving DecidableEq, Repr

/-- The `os.FileInfo` of a successful `os.Stat`. -/
structure FileInfo where
  isDir : Bool
deriving DecidableEq, Repr

/-- The pair `(fi, err)` returned by `os.Stat`; `none` stands for Go's `nil`. -/
structure StatResult where
  fi : Option FileInfo
  err : Option StatErr
deriving DecidableEq, Repr

/-- What `s.Serve()` does: block for the life of the process, return `nil`, or return an error. -/
inductive ServeResult where
  | blocks
  | returnsNil
  | returnsErr
deriving DecidableEq, Repr

/-! ## The environment -/

/-- Everything the environment decides in one run of the process. -/
structure World where
  /-- Result of `os.Getwd()`; `none` is an error. -/
  getwd : Option String
  /-- Result of `ioutil.TempDir("", "bookbrowser")`: the directory it created; `none` is an error. -/
  tempDir : Option String
  /-- The function `filepath.Join` on two elements. -/
  pathJoin : String → String → String
  /-- Value given to `--bookdir`; `none` leaves the flag at its default. -/
  bookdirFlag : Option String
  /-- Value given to `--tempdir`; `none` leaves the flag at its default. -/
  tempdirFlag : Option String
  /-- Value given to `--addr`; `none` leaves the flag at its default. -/
  addrFlag : Option String
  /-- Whether `--nocovers` is given. -/
  nocovers : Bool
  /-- The file system when the process starts. -/
  fs0 : FS
  /-- The entry a path names for the operating system (relative paths, `..`, links). -/
  resolve : String → String
  /-- Paths whose `os.Stat` fails with an error other than not-exist. -/
  statDenied : String → Bool
  /-- Result of `filepath.Abs`; `none` is an error. -/
  abs : String → Option String
  /-- Whether `os.Mkdir` fails. -/
  mkdirFails : Bool
  /-- Whether `os.RemoveAll` returns an error. -/
  removeAllFails : Bool
  /-- Result of `util.GetIP()`; `none` is `nil`. -/
  getIP : Option String
  /-- The value of `len(*s.Books)` after the first `s.RefreshBookIndex()`. -/
  books : Nat
  /-- What `s.Serve()` does. -/
  serve : ServeResult

/-- The call `os.Stat(p)` on the file system `fs`. On an error the `FileInfo` is `nil`. -/
def osStat (w : World) (fs : FS) (p : String) : StatResult :=
  if w.statDenied p then { fi := none, err := some StatErr.other }
  else
    match fs.lookup (w.resolve p) with
    | some n => { fi := some { isDir := n.isDir }, err := none }
    | none => { fi := none, err := some StatErr.notExist }

/-- The file system after `os.Mkdir(p, os.ModePerm)`, whose error is discarded by the caller. -/
def osMkdir (w : World) (fs : FS) (p : String) : FS :=
  if w.mkdirFails || fs.has (w.resolve p) then fs else fs.addDir (w.resolve p)

/-- The file system after `os.RemoveAll(p)`, whose error is discarded by the caller. -/
def osRemoveAll (w : World) (fs : FS) (p : String) : FS :=
  if w.removeAllFails then fs else fs.removeAll (w.resolve p)

/-- The call `strings.Contains(s, ":")`. -/
def containsColon (s : String) : Bool :=
  s.toList.contains ':'

/-- The call `strings.SplitN(s, ":", 2)`: at most two pieces, cut at the first colon. -/
def splitN2 (s : String) : List String :=
  if containsColon s then
    [String.mk (s.toList.takeWhile (fun c => c != ':')),
     String.mk ((s.toList.dropWhile (fun c => c != ':')).drop 1)]
  else [s]

/-! ## Observable behaviour -/

/-- The diagnostics of the `log.Fatal*` calls. -/
inductive Diag where
  /-- Line 25. -/
  | getwdFailed
  /-- Line 71. -/
  | bookDirMissing (bookdir : String)
  /-- Line 84. -/
  | bookDirUnresolved
  /-- Line 93. -/
  | tempDirUnresolved
  /-- Line 110. -/
  | invalidAddress
  /-- Line 125. -/
  | noBooks
  /-- Line 135. -/
  | serveFailed
deriving DecidableEq, Repr

/-- The lines written by the non-fatal `log` calls. -/
inductive LogLine where
  /-- Line 67. -/
  | banner
  /-- Line 117. -/
  | accessAt (ip port : String)
  /-- Line 101. -/
  | notRemoving
  /-- Line 103. -/
  | cleaningUp
deriving DecidableEq, Repr

/-- The calls a run performs, in the order it performs them. -/
inductive Event where
  /-- `ioutil.TempDir` created the directory `d`. -/
  | tempDir (d : String)
  | log (l : LogLine)
  | stat (p : String)
  | mkdir (p : String)
  /-- `signal.Notify(sigs, SIGINT, SIGTERM)` and the start of the listening goroutine. -/
  | notify
  | getIP
  | newServer (addr bookdir tempdir : String) (nocovers : Bool)
  | refreshBookIndex
  /-- `sigusr.Handle(...)`: the refresh handler is armed. -/
  | sigusrHandle
  | serve
  | removeAll (p : String)
deriving DecidableEq, Repr

/-- How a goroutine ends. -/
inductive Outcome where
  /-- The call `log.Fatal*`: one diagnostic line, then `os.Exit(1)`. -/
  | fatal (d : Diag)
  /-- A run-time panic: the process dies with exit status 2. -/
  | panicked
  /-- The call `os.Exit(code)`. -/
  | exited (code : Nat)
  /-- The action returned, so `main` returns and the process exits with status 0. -/
  | returned
  /-- Blocked inside `s.Serve()` for as long as the process lives. -/
  | serving
deriving DecidableEq, Repr

/-- The exit status of the process, when the outcome ends it. -/
def Outcome.exitCode : Outcome → Option Nat
  | Outcome.fatal _ => some 1
  | Outcome.panicked => some 2
  | Outcome.exited c => some c
  | Outcome.returned => some 0
  | Outcome.serving => none

/-- The variables captured by the closure of the listening goroutine (lines 98-107). -/
structure Handler where
  noRemoveTempDir : Bool
  tempdir : String
deriving DecidableEq, Repr

/-- The result of running a goroutine: the calls made, the file system left, the termination
handler installed (if `signal.Notify` was reached), and the outcome. -/
structure Result where
  trace : List Event
  fs : FS
  handler : Option Handler
  outcome : Outcome
deriving DecidableEq, Repr

/-! ## The program -/

/-- Lines 28-31: the default scratch path. `ioutil.TempDir` creates the directory it returns. -/
def deftempdirOf (w : World) (workdir : String) : String :=
  match w.tempDir with
  | some d => d
  | none => w.pathJoin workdir "_temp"

/-- Lines 28-31: the file system once the default scratch path has been allocated. -/
def fsAtAction (w : World) : FS :=
  match w.tempDir with
  | some d => w.fs0.addDir (w.resolve d)
  | none => w.fs0

/-- Lines 28-31: the calls made while allocating the default scratch path. -/
def startupTrace (w : World) : List Event :=
  match w.tempDir with
  | some d => [Event.tempDir d]
  | none => []

/-- Line 60: the value of `c.String("bookdir")`; the flag defaults to the working directory. -/
def bookdirOf (w : World) (workdir : String) : String :=
  w.bookdirFlag.getD workdir

/-- Line 61: the value of `c.String("tempdir")`; the flag defaults to the default scratch path. -/
def tempdirOf (w : World) (deftempdir : String) : String :=
  w.tempdirFlag.getD deftempdir

/-- Line 65: the value of `c.String("addr")`; the flag defaults to `:8090`. -/
def addrOf (w : World) : String :=
  w.addrFlag.getD ":8090"

/-- Line 75: the condition `err == nil || fi.IsDir()`. The right operand is evaluated only
when `err` is not `nil`; calling `IsDir` on a `nil` `FileInfo` panics (`none`). -/
def statOkOrIsDir (r : StatResult) : Option Bool :=
  match r.err with
  | none => some true
  | some _ =>
    match r.fi with
    | none => none
    | some fi => some fi.isDir

/-- Lines 63 and 76-79: the value of `noRemoveTempDir` after the `if` of line 75, given
the value of its condition. -/
def noRemoveTempDirOf (cond : Bool) (tempdir deftempdir : String) : Bool :=
  if cond then
    if tempdir == deftempdir then false else true
  else false

/-- Lines 87-89: the second stat of the scratch path and, when it reports not-exist, the
`os.Mkdir`. Gives the file system left and the calls made. -/
def ensureTempDir (w : World) (fs : FS) (tempdir : String) : FS × List Event :=
  if (osStat w fs tempdir).err = some StatErr.notExist then
    (osMkdir w fs tempdir, [Event.stat tempdir, Event.mkdir tempdir])
  else (fs, [Event.stat tempdir])

/-- Lines 113-119: the split of the address and the informational line for an empty host.
Gives the calls made; `none` is an index out of range on `sp`. -/
def announce (w : World) (addr : String) : Option (List Event) :=
  let sp := splitN2 addr
  match sp.get? 0 with
  | none => none
  | some sp0 =>
    if sp0 == "" then
      match w.getIP with
      | some ip =>
        match sp.get? 1 with
        | none => none
        | some sp1 => some [Event.getIP, Event.log (LogLine.accessAt ip sp1)]
      | none => some [Event.getIP]
    else some []

/-- Lines 60-136: the action run by `app.Run`. -/
def action (w : World) (workdir deftempdir : String) (fs : FS) (tr0 : List Event) : Result :=
  let bookdir := bookdirOf w workdir
  let tempdir := tempdirOf w deftempdir
  let nocovers := w.nocovers
  let addr := addrOf w
  let tr1 := tr0 ++ [Event.log LogLine.banner, Event.stat bookdir]
  if (osStat w fs bookdir).err = some StatErr.notExist then
    { trace := tr1, fs := fs, handler := none,
      outcome := Outcome.fatal (Diag.bookDirMissing bookdir) }
  else
  let tr2 := tr1 ++ [Event.stat tempdir]
  match statOkOrIsDir (osStat w fs tempdir) with
  | none => { trace := tr2, fs := fs, handler := none, outcome := Outcome.panicked }
  | some cond =>
  let noRemoveTempDir := noRemoveTempDirOf cond tempdir deftempdir
  match w.abs bookdir with
  | none =>
    { trace := tr2, fs := fs, handler := none, outcome := Outcome.fatal Diag.bookDirUnresolved }
  | some bookdirAbs =>
  let fs1 := (ensureTempDir w fs tempdir).1
  let tr3 := tr2 ++ (ensureTempDir w fs tempdir).2
  match w.abs tempdir with
  | none =>
    { trace := tr3, fs := fs1, handler := none, outcome := Outcome.fatal Diag.tempDirUnresolved }
  | some tempdirAbs =>
  let h : Handler := { noRemoveTempDir := noRemoveTempDir, tempdir := tempdirAbs }
  let tr4 := tr3 ++ [Event.notify]
  if containsColon addr = false then
    { trace := tr4, fs := fs1, handler := some h, outcome := Outcome.fatal Diag.invalidAddress }
  else
  match announce w addr with
  | none => { trace := tr4, fs := fs1, handler := some h, outcome := Outcome.panicked }
  | some evs =>
  let tr5 := tr4 ++ evs ++
    [Event.newServer addr bookdirAbs tempdirAbs nocovers, Event.refreshBookIndex]
  if w.books = 0 then
    { trace := tr5, fs := fs1, handler := some h, outcome := Outcome.fatal Diag.noBooks }
  else
  let tr6 := tr5 ++ [Event.sigusrHandle, Event.serve]
  match w.serve with
  | ServeResult.returnsErr =>
    { trace := tr6, fs := fs1, handler := some h, outcome := Outcome.fatal Diag.serveFailed }
  | ServeResult.returnsNil =>
    { trace := tr6, fs := fs1, handler := some h, outcome := Outcome.returned }
  | ServeResult.blocks =>
    { trace := tr6, fs := fs1, handler := some h, outcome := Outcome.serving }

/-- Lines 22-139: the main goroutine. -/
def main (w : World) : Result :=
  match w.getwd with
  | none => { trace := [], fs := w.fs0, handler := none, outcome := Outcome.fatal Diag.getwdFailed }
  | some workdir => action w workdir (deftempdirOf w workdir) (fsAtAction w) (startupTrace w)

/-- Lines 99-106: the body of the listening goroutine once a signal has been received, run
on the file system `fs` of that moment. -/
def terminationAction (w : World) (h : Handler) (fs : FS) : Result :=
  if h.noRemoveTempDir then
    { trace := [Event.log LogLine.notRemoving], fs := fs, handler := some h,
      outcome := Outcome.exited 0 }
  else
    { trace := [Event.log LogLine.cleaningUp, Event.removeAll h.tempdir],
      fs := osRemoveAll w fs h.tempdir, handler := some h, outcome := Outcome.exited 0 }

/-- A run that ends through the termination action: the main goroutine has installed the
handler and a signal is then received. The main goroutine itself makes no file-system call
after the installation, so the listening goroutine runs on the file system the main goroutine
left (what the server writes beneath the scratch directory is not modelled). `none` when the
handler is never installed. -/
def terminatedRun (w : World) : Option Result :=
  match (main w).handler with
  | some h => some (terminationAction w h (main w).fs)
  | none => none

/-- Whether a call is an `os.RemoveAll`. -/
def Event.isRemoveAll : Event → Bool
  | Event.removeAll _ => true
  | _ => false

/-- Whether a call is an `os.Stat`. -/
def Event.isStat : Event → Bool
  | Event.stat _ => true
  | _ => false

/-- Whether a call belongs to the part of the run before `signal.Notify`: the startup
allocation, the banner, a stat or an `os.Mkdir`. -/
def Event.isSetup : Event → Bool
  | Event.tempDir _ => true
  | Event.log LogLine.banner => true
  | Event.stat _ => true
  | Event.mkdir _ => true
  | _ => false

/-- The number of colons in a string. -/
def colonCount (s : String) : Nat :=
  s.toList.count ':'

/-! ## Concrete runs -/

/-- A run with the content directory `/books` and every flag at its default. -/
def wDefault : World where
  getwd := some "/books"
  tempDir := some "/tmp/bookbrowser1"
  pathJoin := fun a b => a ++ "/" ++ b
  bookdirFlag := none
  tempdirFlag := none
  addrFlag := none
  nocovers := false
  fs0 := [{ path := "/books", isDir := true }, { path := "/tmp", isDir := true },
    { path := "/var/cache/covers", isDir := true },
    { path := "/var/cache/covers/1.jpg", isDir := false }]
  resolve := fun p => p
  statDenied := fun _ => false
  abs := fun p => some p
  mkdirFails := false
  removeAllFails := false
  getIP := none
  books := 3
  serve := ServeResult.blocks

/-- The default run with `--tempdir /var/cache/covers`, a directory that exists. -/
def wKeptTemp : World :=
  { wDefault with tempdirFlag := some "/var/cache/covers" }

/-- The default run with `--tempdir /var/cache/bb`, a path that does not exist. -/
def wNewTemp : World :=
  { wDefault with tempdirFlag := some "/var/cache/bb" }

/-- The default run with `--addr 8090`, an address without a colon. -/
def wBadAddr : World :=
  { wDefault with addrFlag := some "8090" }

/-- The default run with `--addr [::1]:8090`, an IPv6 host. -/
def wIPv6Addr : World :=
  { wDefault with addrFlag := some "[::1]:8090" }

/-- The default run with `--bookdir /nobooks`, a path that does not exist. -/
def wNoBookDir : World :=
  { wDefault with bookdirFlag := some "/nobooks" }

/-- The default run in which the stat of the content directory fails with an error other than
not-exist. -/
def wBookDirDenied : World :=
  { wDefault with statDenied := fun p => p == "/books" }

/-- The default run in which the index finds no book. -/
def wNoBooks : World :=
  { wDefault with books := 0 }

/-- The default run in which `os.RemoveAll` fails. -/
def wRemoveFails : World :=
  { wDefault with removeAllFails := true }

/-- What the termination action leaves of the default run. -/
def rDefaultTerminated : Result where
  trace := [Event.log LogLine.cleaningUp, Event.removeAll "/tmp/bookbrowser1"]
  fs := [{ path := "/books", isDir := true }, { path := "/tmp", isDir := true },
    { path := "/var/cache/covers", isDir := true },
    { path := "/var/cache/covers/1.jpg", isDir := false }]
  handler := some { noRemoveTempDir := false, tempdir := "/tmp/bookbrowser1" }
  outcome := Outcome.exited 0

/-- The default run in which `filepath.Abs` fails on every path. -/
def wBookUnresolved : World :=
  { wDefault with abs := fun _ => none }

/-- The default run in which `filepath.Abs` fails on the scratch path. -/
def wTempUnresolved : World :=
  { wDefault with abs := fun p => if p == "/books" then some p else none }

/-! ## Lemmas on the pieces of the program -/

theorem main_of_getwd (w : World) (workdir : String) (hwd : w.getwd = some workdir) :
    main w = action w workdir (deftempdirOf w workdir) (fsAtAction w) (startupTrace w) := by
  simp only [main, hwd]

theorem main_of_getwd_none (w : World) (hwd : w.getwd = none) :
    main w = { trace := [], fs := w.fs0, handler := none,
               outcome := Outcome.fatal Diag.getwdFailed } := by
  simp only [main, hwd]

theorem startupTrace_mem (w : World) (e : Event) (h : e ∈ startupTrace w) :
    ∃ d, e = Event.tempDir d := by
  unfold startupTrace at h
  split at h <;> simp at h
  exact ⟨_, h⟩

theorem startupTrace_isSetup (w : World) (e : Event) (h : e ∈ startupTrace w) :
    e.isSetup = true := by
  obtain ⟨d, rfl⟩ := startupTrace_mem w e h
  rfl

theorem ensureTempDir_mem (w : World) (fs : FS) (t : String) (e : Event)
    (h : e ∈ (ensureTempDir w fs t).2) : e = Event.stat t ∨ e = Event.mkdir t := by
  unfold ensureTempDir at h
  split at h <;> simp at h <;> tauto

theorem announce_mem (w : World) (a : String) (evs : List Event) (e : Event)
    (ha : announce w a = some evs) (h : e ∈ evs) :
    e = Event.getIP ∨ ∃ ip port, e = Event.log (LogLine.accessAt ip port) := by
  unfold announce at ha
  simp only [] at ha
  repeat' split at ha
  all_goals simp at ha
  all_goals subst ha
  all_goals simp at h
  · rcases h with h | h
    · exact Or.inl h
    · exact Or.inr ⟨_, _, h⟩
  · exact Or.inl h

/-- With an address that has no colon, the action ends with a non-zero exit status and every
call it adds to the trace comes before or is `signal.Notify`. -/
theorem action_no_colon (w : World) (workdir d : String) (fs : FS) (tr0 : List Event)
    (h : containsColon (addrOf w) = false) :
    (∃ c, (action w workdir d fs tr0).outcome.exitCode = some c ∧ c ≠ 0) ∧
    (∀ e ∈ (action w workdir d fs tr0).trace, e ∈ tr0 ∨ e.isSetup = true ∨ e = Event.notify) := by
  unfold action
  simp only [h]
  repeat' split
  all_goals (first | (exfalso; simp_all; done) | skip)
  all_goals
    refine ⟨by simp [Outcome.exitCode], ?_⟩
    simp only []
    intro e he
    simp only [List.mem_append, List.mem_cons, List.mem_singleton, List.not_mem_nil,
      or_false] at he
    casesm* _ ∨ _
  all_goals (first | exact Or.inl ‹_› | (subst_vars; simp [Event.isSetup]; done) | skip)
  all_goals
    rcases ensureTempDir_mem _ _ _ _ ‹_› with h1 | h1 <;> subst h1 <;> simp [Event.isSetup]

/-- A failed `os.Stat` carries no `FileInfo`. -/
theorem osStat_err_none_or_fi_none (w : World) (fs : FS) (p : String) :
    (osStat w fs p).err = none ∨ (osStat w fs p).fi = none := by
  unfold osStat
  repeat' split
  all_goals simp

/-- The condition of line 75 has a value only when the stat succeeded, and then it is true. -/
theorem statOkOrIsDir_osStat (w : World) (fs : FS) (p : String) (c : Bool)
    (h : statOkOrIsDir (osStat w fs p) = some c) :
    c = true ∧ (osStat w fs p).err = none := by
  unfold statOkOrIsDir at h
  rcases osStat_err_none_or_fi_none w fs p with h1 | h1
  · rw [h1] at h
    simp at h
    exact ⟨h, h1⟩
  · rw [h1] at h
    split at h
    · simp at h
      exact ⟨h, by assumption⟩
    · simp at h

/-- The condition of line 75 panics whenever the stat failed. -/
theorem statOkOrIsDir_of_err (w : World) (fs : FS) (p : String)
    (h : (osStat w fs p).err ≠ none) : statOkOrIsDir (osStat w fs p) = none := by
  cases hc : statOkOrIsDir (osStat w fs p) with
  | none => rfl
  | some c => exact absurd (statOkOrIsDir_osStat w fs p c hc).2 h

theorem statOkOrIsDir_of_ok (w : World) (fs : FS) (p : String)
    (h : (osStat w fs p).err = none) : statOkOrIsDir (osStat w fs p) = some true := by
  simp [statOkOrIsDir, h]

theorem ensureTempDir_of_err_none (w : World) (fs : FS) (p : String)
    (h : (osStat w fs p).err = none) : ensureTempDir w fs p = (fs, [Event.stat p]) := by
  simp [ensureTempDir, h]

theorem colonCount_pos (s : String) (h : containsColon s = true) : 1 ≤ colonCount s := by
  unfold containsColon at h
  unfold colonCount
  have hmem : ':' ∈ s.toList := by simpa using h
  exact List.count_pos_iff.mpr hmem

theorem has_removeAll_self (fs : FS) (p : String) : (fs.removeAll p).has p = false := by
  unfold FS.has FS.removeAll
  rw [Bool.eq_false_iff]
  intro hany
  rw [List.any_eq_true] at hany
  obtain ⟨n, hn, hp⟩ := hany
  rw [List.mem_filter] at hn
  have hpath : n.path = p := by simpa using hp
  simp [beneath, hpath] at hn

/-- A call of `server.NewServer` in the trace of the action fixes how the action got there. -/
theorem action_newServer (w : World) (workdir d : String) (fs : FS) (tr0 : List Event)
    (a b t : String) (n : Bool) (h0 : ∀ e ∈ tr0, e.isSetup = true) :
    Event.newServer a b t n ∈ (action w workdir d fs tr0).trace →
    a = addrOf w ∧ containsColon (addrOf w) = true ∧
    (osStat w fs (bookdirOf w workdir)).err ≠ some StatErr.notExist ∧
    w.abs (bookdirOf w workdir) = some b ∧ w.abs (tempdirOf w d) = some t ∧
    n = w.nocovers := by
  unfold action
  simp only []
  repeat' split
  all_goals
    intro hmem
    simp only [List.mem_append, List.mem_cons, List.mem_singleton, List.not_mem_nil,
      or_false] at hmem
    casesm* _ ∨ _
  all_goals
    first
    | (have hx := h0 _ ‹_›; simp [Event.isSetup] at hx)
    | (rcases ensureTempDir_mem _ _ _ _ ‹_› with h1 | h1 <;> simp at h1)
    | (rcases announce_mem _ _ _ _ ‹_› ‹_› with h1 | ⟨_, _, h1⟩ <;> simp at h1)
    | simp_all

/-- With an empty catalog, an action that ran the index ends at line 125. -/
theorem action_empty_catalog (w : World) (workdir d : String) (fs : FS) (tr0 : List Event)
    (h0 : ∀ e ∈ tr0, e.isSetup = true) (hb : w.books = 0) :
    Event.refreshBookIndex ∈ (action w workdir d fs tr0).trace →
    (action w workdir d fs tr0).outcome = Outcome.fatal Diag.noBooks ∧
    Event.sigusrHandle ∉ (action w workdir d fs tr0).trace ∧
    Event.serve ∉ (action w workdir d fs tr0).trace := by
  unfold action
  simp only [hb]
  repeat' split
  all_goals
    intro hmem
    simp only [List.mem_append, List.mem_cons, List.mem_singleton, List.not_mem_nil,
      or_false] at hmem
    casesm* _ ∨ _
  all_goals
    first
    | (have hx := h0 _ ‹_›; simp [Event.isSetup] at hx; done)
    | (rcases ensureTempDir_mem _ _ _ _ ‹_› with h1 | h1 <;> simp at h1; done)
    | (rcases announce_mem _ _ _ _ ‹_› ‹_› with h1 | ⟨_, _, h1⟩ <;> simp at h1; done)
    | (simp at *; done)
    | skip
  all_goals
    refine ⟨rfl, ?_, ?_⟩
  all_goals
    intro hmem
    simp only [List.mem_append, List.mem_cons, List.mem_singleton, List.not_mem_nil,
      or_false] at hmem
    casesm* _ ∨ _
  all_goals
    first
    | (have hx := h0 _ ‹_›; simp [Event.isSetup] at hx; done)
    | (rcases ensureTempDir_mem _ _ _ _ ‹_› with h1 | h1 <;> simp at h1; done)
    | (rcases announce_mem _ _ _ _ ‹_› ‹_› with h1 | ⟨_, _, h1⟩ <;> simp at h1; done)
    | (simp at *; done)

/-- An installed handler fixes the values its closure captured and how the action got there. -/
theorem action_handler (w : World) (workdir d : String) (fs : FS) (tr0 : List Event)
    (h : Handler) :
    (action w workdir d fs tr0).handler = some h →
    (osStat w fs (tempdirOf w d)).err = none ∧
    h.noRemoveTempDir = noRemoveTempDirOf true (tempdirOf w d) d ∧
    w.abs (tempdirOf w d) = some h.tempdir ∧
    (action w workdir d fs tr0).fs = fs ∧
    Event.notify ∈ (action w workdir d fs tr0).trace := by
  unfold action
  simp only []
  repeat' split
  all_goals
    intro hh
    simp only [Option.some.injEq] at hh
  all_goals (first | (simp at hh; done) | skip)
  all_goals
    subst hh
    obtain ⟨hc, herr⟩ := statOkOrIsDir_osStat _ _ _ _ ‹_›
    subst hc
    refine ⟨herr, rfl, ‹_›, ?_, ?_⟩
    · simp [ensureTempDir_of_err_none _ _ _ herr]
    · simp

/-- The file system is never changed by the action. -/
theorem action_fs (w : World) (workdir d : String) (fs : FS) (tr0 : List Event) :
    (action w workdir d fs tr0).fs = fs := by
  unfold action
  simp only []
  repeat' split
  all_goals (first | rfl | skip)
  all_goals
    obtain ⟨hc, herr⟩ := statOkOrIsDir_osStat _ _ _ _ ‹_›
    simp [ensureTempDir_of_err_none _ _ _ herr]

/-- Where each configuration failure leaves the action. -/
theorem action_fatal (w : World) (workdir d : String) (fs : FS) (tr0 : List Event) :
    (∀ b, (action w workdir d fs tr0).outcome = Outcome.fatal (Diag.bookDirMissing b) →
      (action w workdir d fs tr0).handler = none ∧
      (action w workdir d fs tr0).trace =
        tr0 ++ [Event.log LogLine.banner, Event.stat (bookdirOf w workdir)]) ∧
    ((action w workdir d fs tr0).outcome = Outcome.fatal Diag.bookDirUnresolved →
      (action w workdir d fs tr0).handler = none ∧
      (action w workdir d fs tr0).trace =
        tr0 ++ [Event.log LogLine.banner, Event.stat (bookdirOf w workdir),
          Event.stat (tempdirOf w d)]) ∧
    ((action w workdir d fs tr0).outcome = Outcome.fatal Diag.tempDirUnresolved →
      (action w workdir d fs tr0).handler = none ∧
      (action w workdir d fs tr0).trace =
        tr0 ++ [Event.log LogLine.banner, Event.stat (bookdirOf w workdir),
          Event.stat (tempdirOf w d), Event.stat (tempdirOf w d)]) ∧
    ((action w workdir d fs tr0).outcome = Outcome.fatal Diag.invalidAddress →
      (∃ h, (action w workdir d fs tr0).handler = some h) ∧
      (action w workdir d fs tr0).trace =
        tr0 ++ [Event.log LogLine.banner, Event.stat (bookdirOf w workdir),
          Event.stat (tempdirOf w d), Event.stat (tempdirOf w d), Event.notify]) := by
  unfold action
  simp only []
  repeat' split
  all_goals
    refine ⟨fun b hb => ?_, fun hb => ?_, fun hb => ?_, fun hb => ?_⟩
  all_goals (first | (simp at hb; done) | skip)
  all_goals (first | (simp; done) | skip)
  all_goals
    obtain ⟨hc, herr⟩ := statOkOrIsDir_osStat _ _ _ _ ‹_›
    simp [ensureTempDir_of_err_none _ _ _ herr]

/-- The split of an address that has a colon never indexes out of range. -/
theorem announce_isSome (w : World) (a : String) (h : containsColon a = true) :
    ∃ evs, announce w a = some evs := by
  unfold announce splitN2
  simp only [h, if_true]
  simp only [List.get?_cons_zero, List.get?_cons_succ]
  repeat' split
  all_goals simp

/-- With a content directory whose stat does not report not-exist, a scratch path whose
stat succeeds, both paths resolvable and an address with a colon, the main goroutine
installs the handler, constructs the server with the resolved paths and runs the index. -/
theorem main_reaches_index (w : World) (workdir b t : String)
    (hwd : w.getwd = some workdir)
    (hbook : (osStat w (fsAtAction w) (bookdirOf w workdir)).err ≠ some StatErr.notExist)
    (htemp : (osStat w (fsAtAction w) (tempdirOf w (deftempdirOf w workdir))).err = none)
    (hb : w.abs (bookdirOf w workdir) = some b)
    (ht : w.abs (tempdirOf w (deftempdirOf w workdir)) = some t)
    (haddr : containsColon (addrOf w) = true) :
    (∃ h, (main w).handler = some h) ∧
    Event.newServer (addrOf w) b t w.nocovers ∈ (main w).trace ∧
    Event.refreshBookIndex ∈ (main w).trace := by
  obtain ⟨evs, hevs⟩ := announce_isSome w (addrOf w) haddr
  rw [main_of_getwd w workdir hwd]
  unfold action
  simp only [hbook, statOkOrIsDir_of_ok _ _ _ htemp, hb, ht, haddr, hevs, if_false]
  repeat' split
  all_goals (first | contradiction | simp)

/-- Every call of the startup allocation belongs to the setup. -/
theorem startupTrace_all_isSetup (w : World) : ∀ e ∈ startupTrace w, e.isSetup = true :=
  fun e he => startupTrace_isSetup w e he

/-! ## The claims -/

/-- C1. When the first stat of the scratch path succeeds (the path exists before the
bootstrap touches it) and the termination handler gets installed: for a path other than the
generated default, `noRemoveTempDir` is true and the termination action calls no
`os.RemoveAll` and leaves the file system as it is; for the generated default path,
`noRemoveTempDir` is false and the termination action calls `os.RemoveAll` on the absolute
scratch path, which removes it and all beneath it unless the removal fails. -/
theorem C1_existing_scratch_dir_ownership (w : World) (workdir : String) (h : Handler)
    (hwd : w.getwd = some workdir)
    (hexists : (osStat w (fsAtAction w) (tempdirOf w (deftempdirOf w workdir))).err = none)
    (hinst : (main w).handler = some h) :
    (tempdirOf w (deftempdirOf w workdir) ≠ deftempdirOf w workdir →
      h.noRemoveTempDir = true ∧
      ∀ fs, (∀ p, Event.removeAll p ∉ (terminationAction w h fs).trace) ∧
        (terminationAction w h fs).fs = fs) ∧
    (tempdirOf w (deftempdirOf w workdir) = deftempdirOf w workdir →
      h.noRemoveTempDir = false ∧
      w.abs (deftempdirOf w workdir) = some h.tempdir ∧
      ∀ fs, Event.removeAll h.tempdir ∈ (terminationAction w h fs).trace ∧
        (w.removeAllFails = false →
          (terminationAction w h fs).fs = fs.removeAll (w.resolve h.tempdir))) := by
  rw [main_of_getwd w workdir hwd] at hinst
  obtain ⟨_, hflag, habs, _, _⟩ := action_handler _ _ _ _ _ _ hinst
  have hcond := statOkOrIsDir_of_ok _ _ _ hexists
  refine ⟨fun hne => ?_, fun heq => ?_⟩
  · have hb : (tempdirOf w (deftempdirOf w workdir) == deftempdirOf w workdir) = false := by
      simpa using hne
    have hf : h.noRemoveTempDir = true := by
      rw [hflag]
      simp [noRemoveTempDirOf, hb]
    refine ⟨hf, fun fs => ?_⟩
    simp [terminationAction, hf]
  · have hf : h.noRemoveTempDir = false := by
      rw [hflag]
      simp [noRemoveTempDirOf, heq]
    refine ⟨hf, by rw [← heq]; exact habs, fun fs => ?_⟩
    refine ⟨by simp [terminationAction, hf], fun hrm => ?_⟩
    simp [terminationAction, hf, osRemoveAll, hrm]

/-- Witness of C1: with `--tempdir /var/cache/covers`, an existing directory, the handler
keeps the directory; with the flag at its default, the handler removes the default path. -/
theorem C1_existing_scratch_dir_ownership_witness :
    (wKeptTemp.getwd = some "/books" ∧
      (main wKeptTemp).handler =
        some { noRemoveTempDir := true, tempdir := "/var/cache/covers" } ∧
      tempdirOf wKeptTemp (deftempdirOf wKeptTemp "/books") ≠
        deftempdirOf wKeptTemp "/books") ∧
    (wDefault.getwd = some "/books" ∧
      (main wDefault).handler =
        some { noRemoveTempDir := false, tempdir := "/tmp/bookbrowser1" } ∧
      tempdirOf wDefault (deftempdirOf wDefault "/books") = deftempdirOf wDefault "/books") ∧
    (∀ fs, (∀ p, Event.removeAll p ∉
        (terminationAction wKeptTemp
          { noRemoveTempDir := true, tempdir := "/var/cache/covers" } fs).trace) ∧
      (terminationAction wKeptTemp
          { noRemoveTempDir := true, tempdir := "/var/cache/covers" } fs).fs = fs) ∧
    (∀ fs, Event.removeAll "/tmp/bookbrowser1" ∈
        (terminationAction wDefault
          { noRemoveTempDir := false, tempdir := "/tmp/bookbrowser1" } fs).trace) :=
  ⟨⟨by decide, by decide, by decide⟩, ⟨by decide, by decide, by decide⟩,
    ((C1_existing_scratch_dir_ownership wKeptTemp "/books"
      { noRemoveTempDir := true, tempdir := "/var/cache/covers" }
      (by decide) (by decide) (by decide)).1 (by decide)).2,
    fun fs => (((C1_existing_scratch_dir_ownership wDefault "/books"
      { noRemoveTempDir := false, tempdir := "/tmp/bookbrowser1" }
      (by decide) (by decide) (by decide)).2 (by decide)).2.2 fs).1⟩

/-- C2, at the failing input `--tempdir /var/cache/bb` (a path that does not exist, the
content directory exists): the first stat of the scratch path fails, the condition of line 75
dereferences the nil `FileInfo`, and the main goroutine panics: no `os.Mkdir`, no handler,
the scratch path still missing. -/
theorem C2_missing_scratch_dir_panics :
    (osStat wNewTemp (fsAtAction wNewTemp) "/var/cache/bb").err = some StatErr.notExist ∧
    (osStat wNewTemp (fsAtAction wNewTemp) "/books").err = none ∧
    (main wNewTemp).outcome = Outcome.panicked ∧
    (main wNewTemp).handler = none ∧
    Event.mkdir "/var/cache/bb" ∉ (main wNewTemp).trace ∧
    (main wNewTemp).fs.has "/var/cache/bb" = false ∧
    terminatedRun wNewTemp = none := by
  decide

/-- Whenever the first stat of the scratch path fails, for whatever reason, a run that got
past the check of the content directory panics at line 75. -/
theorem main_panics_without_scratch_dir (w : World) (workdir : String)
    (hwd : w.getwd = some workdir)
    (hbook : (osStat w (fsAtAction w) (bookdirOf w workdir)).err ≠ some StatErr.notExist)
    (htemp : (osStat w (fsAtAction w) (tempdirOf w (deftempdirOf w workdir))).err ≠ none) :
    (main w).outcome = Outcome.panicked ∧ (main w).handler = none := by
  rw [main_of_getwd w workdir hwd]
  unfold action
  simp [hbook, statOkOrIsDir_of_err _ _ _ htemp]

/-- No run of the main goroutine reaches the `os.Mkdir` of line 88. -/
theorem main_never_mkdir (w : World) (p : String) : Event.mkdir p ∉ (main w).trace := by
  cases hwd : w.getwd with
  | none => simp [main_of_getwd_none w hwd]
  | some workdir =>
    rw [main_of_getwd w workdir hwd]
    have h0 := startupTrace_mem w
    unfold action
    simp only []
    repeat' split
    all_goals
      intro hmem
      simp only [List.mem_append, List.mem_cons, List.mem_singleton, List.not_mem_nil,
        or_false] at hmem
      casesm* _ ∨ _
    all_goals
      first
      | (obtain ⟨_, h1⟩ := h0 _ ‹_›; simp at h1; done)
      | (simp at *; done)
      | (obtain ⟨hc, herr⟩ := statOkOrIsDir_osStat _ _ _ _ ‹_›
         rw [ensureTempDir_of_err_none _ _ _ herr] at *
         simp at *
         done)
      | (rcases announce_mem _ _ _ _ ‹_› ‹_› with h1 | ⟨_, _, h1⟩ <;> simp at h1; done)

/-- C3. For every bind address without a colon, whatever the content directory, the scratch
directory and the other flags, the main goroutine ends the process with a non-zero exit
status, and it never calls `server.NewServer`, `RefreshBookIndex`, `sigusr.Handle` or
`Serve`. -/
theorem C3_address_without_colon_is_fatal (w : World)
    (h : containsColon (addrOf w) = false) :
    (∃ c, (main w).outcome.exitCode = some c ∧ c ≠ 0) ∧
    (∀ a b t n, Event.newServer a b t n ∉ (main w).trace) ∧
    Event.refreshBookIndex ∉ (main w).trace ∧
    Event.sigusrHandle ∉ (main w).trace ∧
    Event.serve ∉ (main w).trace := by
  have key : (∃ c, (main w).outcome.exitCode = some c ∧ c ≠ 0) ∧
      ∀ e ∈ (main w).trace, e.isSetup = true ∨ e = Event.notify := by
    cases hwd : w.getwd with
    | none =>
      rw [main_of_getwd_none w hwd]
      simp [Outcome.exitCode]
    | some workdir =>
      rw [main_of_getwd w workdir hwd]
      obtain ⟨h1, h2⟩ := action_no_colon w workdir (deftempdirOf w workdir) (fsAtAction w)
        (startupTrace w) h
      refine ⟨h1, fun e he => ?_⟩
      rcases h2 e he with h3 | h3
      · exact Or.inl (startupTrace_isSetup w e h3)
      · exact h3
  refine ⟨key.1, ?_, ?_, ?_, ?_⟩
  · intro a b t n hmem
    rcases key.2 _ hmem with h1 | h1
    · simp [Event.isSetup] at h1
    · simp at h1
  · intro hmem
    rcases key.2 _ hmem with h1 | h1
    · simp [Event.isSetup] at h1
    · simp at h1
  · intro hmem
    rcases key.2 _ hmem with h1 | h1
    · simp [Event.isSetup] at h1
    · simp at h1
  · intro hmem
    rcases key.2 _ hmem with h1 | h1
    · simp [Event.isSetup] at h1
    · simp at h1

/-- Witness of C3: the run with `--addr 8090` ends with exit status 1 and constructs no
server. -/
theorem C3_address_without_colon_is_fatal_witness :
    containsColon (addrOf wBadAddr) = false ∧
    (main wBadAddr).outcome = Outcome.fatal Diag.invalidAddress ∧
    ((∃ c, (main wBadAddr).outcome.exitCode = some c ∧ c ≠ 0) ∧
    (∀ a b t n, Event.newServer a b t n ∉ (main wBadAddr).trace) ∧
    Event.refreshBookIndex ∉ (main wBadAddr).trace ∧
    Event.sigusrHandle ∉ (main wBadAddr).trace ∧
    Event.serve ∉ (main wBadAddr).trace) :=
  ⟨by decide, by decide, C3_address_without_colon_is_fatal wBadAddr (by decide)⟩

/-- C4, counterexample. With `--bookdir /nobooks` (missing) the process fails with the
content-dir-missing diagnostic, and by then the default scratch directory
`/tmp/bookbrowser1`, absent when the process started, has been created by
`ioutil.TempDir`: the file system is not as it was. -/
theorem C4_counterexample :
    (osStat wNoBookDir (fsAtAction wNoBookDir) "/nobooks").err = some StatErr.notExist ∧
    (main wNoBookDir).outcome = Outcome.fatal (Diag.bookDirMissing "/nobooks") ∧
    wNoBookDir.fs0.has "/tmp/bookbrowser1" = false ∧
    (main wNoBookDir).fs.has "/tmp/bookbrowser1" = true ∧
    (main wNoBookDir).fs ≠ wNoBookDir.fs0 := by
  decide

/-- C4, amended. When the stat of the content directory reports not-exist, the process fails
with the content-dir-missing diagnostic before any stat or `os.Mkdir` of the scratch path
and before the handler is installed; the file system is then the initial one plus, when
`ioutil.TempDir` succeeded at startup, the default scratch directory it created. -/
theorem C4_missing_content_dir_is_fatal (w : World) (workdir : String)
    (hwd : w.getwd = some workdir)
    (hmissing : (osStat w (fsAtAction w) (bookdirOf w workdir)).err = some StatErr.notExist) :
    (main w).outcome = Outcome.fatal (Diag.bookDirMissing (bookdirOf w workdir)) ∧
    (main w).trace =
      startupTrace w ++ [Event.log LogLine.banner, Event.stat (bookdirOf w workdir)] ∧
    (main w).handler = none ∧
    (main w).fs = fsAtAction w ∧
    (w.tempDir = none → (main w).fs = w.fs0) ∧
    (∀ d, w.tempDir = some d → (main w).fs = w.fs0 ++ [{ path := w.resolve d, isDir := true }]) := by
  rw [main_of_getwd w workdir hwd]
  have hr : action w workdir (deftempdirOf w workdir) (fsAtAction w) (startupTrace w) =
      { trace := startupTrace w ++ [Event.log LogLine.banner, Event.stat (bookdirOf w workdir)],
        fs := fsAtAction w, handler := none,
        outcome := Outcome.fatal (Diag.bookDirMissing (bookdirOf w workdir)) } := by
    unfold action
    simp [hmissing]
  rw [hr]
  refine ⟨rfl, rfl, rfl, rfl, fun h => ?_, fun d h => ?_⟩
  · simp [fsAtAction, h]
  · simp [fsAtAction, h, FS.addDir]

/-- Witness of C4: the run with `--bookdir /nobooks`. -/
theorem C4_missing_content_dir_is_fatal_witness :
    wNoBookDir.getwd = some "/books" ∧
    (osStat wNoBookDir (fsAtAction wNoBookDir) (bookdirOf wNoBookDir "/books")).err =
      some StatErr.notExist ∧
    (main wNoBookDir).outcome =
      Outcome.fatal (Diag.bookDirMissing (bookdirOf wNoBookDir "/books")) ∧
    (main wNoBookDir).fs = fsAtAction wNoBookDir :=
  ⟨by decide, by decide,
    (C4_missing_content_dir_is_fatal wNoBookDir "/books" (by decide) (by decide)).1,
    (C4_missing_content_dir_is_fatal wNoBookDir "/books" (by decide) (by decide)).2.2.2.1⟩

/-- C5. In every run that reaches the initial `RefreshBookIndex` and whose catalog is then
empty, the main goroutine ends with `log.Fatalln` (exit status 1), and neither
`sigusr.Handle` nor `Serve` is called. -/
theorem C5_empty_catalog_is_fatal (w : World)
    (hidx : Event.refreshBookIndex ∈ (main w).trace) (hb : w.books = 0) :
    (main w).outcome = Outcome.fatal Diag.noBooks ∧
    (main w).outcome.exitCode = some 1 ∧
    Event.sigusrHandle ∉ (main w).trace ∧
    Event.serve ∉ (main w).trace := by
  cases hwd : w.getwd with
  | none =>
    rw [main_of_getwd_none w hwd] at hidx
    simp at hidx
  | some workdir =>
    rw [main_of_getwd w workdir hwd] at hidx ⊢
    obtain ⟨h1, h2, h3⟩ := action_empty_catalog w workdir _ _ _
      (startupTrace_all_isSetup w) hb hidx
    refine ⟨h1, ?_, h2, h3⟩
    rw [h1]
    rfl

/-- Witness of C5: the default run with an index that finds no book. -/
theorem C5_empty_catalog_is_fatal_witness :
    Event.refreshBookIndex ∈ (main wNoBooks).trace ∧ wNoBooks.books = 0 ∧
    ((main wNoBooks).outcome = Outcome.fatal Diag.noBooks ∧
    (main wNoBooks).outcome.exitCode = some 1 ∧
    Event.sigusrHandle ∉ (main wNoBooks).trace ∧
    Event.serve ∉ (main wNoBooks).trace) :=
  ⟨by decide, by decide, C5_empty_catalog_is_fatal wNoBooks (by decide) (by decide)⟩

/-- C6. Whatever the handler captured, whatever the file system, and whether
`os.RemoveAll` succeeds or fails, the termination action calls `os.RemoveAll` at most once,
only on the captured scratch path, and ends the process with `os.Exit(0)`. -/
theorem C6_termination_action_exits_zero (w : World) (h : Handler) (fs : FS) :
    ((terminationAction w h fs).trace.filter Event.isRemoveAll).length ≤ 1 ∧
    (∀ p, Event.removeAll p ∈ (terminationAction w h fs).trace → p = h.tempdir) ∧
    (terminationAction w h fs).outcome = Outcome.exited 0 ∧
    (terminationAction w h fs).outcome.exitCode = some 0 ∧
    (terminationAction { w with removeAllFails := true } h fs).outcome =
      (terminationAction { w with removeAllFails := false } h fs).outcome := by
  unfold terminationAction
  cases h.noRemoveTempDir <;> simp [Event.isRemoveAll, Outcome.exitCode]

/-- C7, counterexample. With `--tempdir /var/cache/covers` the directory
`/tmp/bookbrowser1` that `ioutil.TempDir` created at startup is still there after the
termination action; and with the flag at its default it is still there when `os.RemoveAll`
fails. -/
theorem C7_counterexample :
    (wKeptTemp.tempDir = some "/tmp/bookbrowser1" ∧
      wKeptTemp.fs0.has "/tmp/bookbrowser1" = false ∧
      (terminatedRun wKeptTemp).map (fun r => r.outcome) = some (Outcome.exited 0) ∧
      (terminatedRun wKeptTemp).map (fun r => r.fs.has "/tmp/bookbrowser1") = some true) ∧
    (wRemoveFails.tempDir = some "/tmp/bookbrowser1" ∧
      wRemoveFails.fs0.has "/tmp/bookbrowser1" = false ∧
      (terminatedRun wRemoveFails).map (fun r => r.outcome) = some (Outcome.exited 0) ∧
      (terminatedRun wRemoveFails).map (fun r => r.fs.has "/tmp/bookbrowser1") = some true) := by
  decide

/-- C7, amended. When `--tempdir` is left at (or equal to) the default path allocated by
`ioutil.TempDir`, `filepath.Abs` names the same entry, and `os.RemoveAll` succeeds, a run
that ends through the termination action exits with status 0 and leaves no entry at the
allocated path. -/
theorem C7_default_scratch_dir_removed (w : World) (d : String) (r : Result)
    (halloc : w.tempDir = some d)
    (hflag : tempdirOf w d = d)
    (habs : ∀ q, w.abs d = some q → w.resolve q = w.resolve d)
    (hrm : w.removeAllFails = false)
    (hrun : terminatedRun w = some r) :
    r.fs.has (w.resolve d) = false ∧ r.outcome = Outcome.exited 0 ∧
    ∃ q, w.abs d = some q ∧ Event.removeAll q ∈ r.trace := by
  unfold terminatedRun at hrun
  cases hh : (main w).handler with
  | none => simp [hh] at hrun
  | some h =>
    simp only [hh, Option.some.injEq] at hrun
    subst hrun
    cases hwd : w.getwd with
    | none =>
      rw [main_of_getwd_none w hwd] at hh
      simp at hh
    | some workdir =>
      have hd : deftempdirOf w workdir = d := by simp [deftempdirOf, halloc]
      have hfs : (main w).fs = fsAtAction w := by
        rw [main_of_getwd w workdir hwd]
        exact action_fs _ _ _ _ _
      rw [main_of_getwd w workdir hwd, hd] at hh
      obtain ⟨_, hnr, hq, _, _⟩ := action_handler _ _ _ _ _ _ hh
      rw [hflag] at hnr hq
      have hf : h.noRemoveTempDir = false := by
        rw [hnr]
        simp [noRemoveTempDirOf]
      have hres := habs _ hq
      simp only [terminationAction, hf, osRemoveAll, hrm, hres, hq]
      refine ⟨?_, ?_, ?_⟩
      · exact has_removeAll_self _ _
      · simp
      · exact ⟨h.tempdir, rfl, by simp⟩

/-- Witness of C7: the default run, ended by a signal. -/
theorem C7_default_scratch_dir_removed_witness :
    wDefault.tempDir = some "/tmp/bookbrowser1" ∧
    tempdirOf wDefault "/tmp/bookbrowser1" = "/tmp/bookbrowser1" ∧
    wDefault.removeAllFails = false ∧
    terminatedRun wDefault = some rDefaultTerminated ∧
    (rDefaultTerminated.fs.has (wDefault.resolve "/tmp/bookbrowser1") = false ∧
      rDefaultTerminated.outcome = Outcome.exited 0 ∧
      ∃ q, wDefault.abs "/tmp/bookbrowser1" = some q ∧
        Event.removeAll q ∈ rDefaultTerminated.trace) :=
  ⟨by decide, by decide, by decide, by decide,
    C7_default_scratch_dir_removed wDefault "/tmp/bookbrowser1" rDefaultTerminated
      (by decide) (by decide) (by intro q hq; cases hq; rfl) (by decide) (by decide)⟩

/-- C8, counterexample. The run with `--addr [::1]:8090` constructs the server with that
address, which has three colons. -/
theorem C8_counterexample :
    Event.newServer "[::1]:8090" "/books" "/tmp/bookbrowser1" false ∈ (main wIPv6Addr).trace ∧
    colonCount "[::1]:8090" = 3 ∧ colonCount "[::1]:8090" ≠ 1 := by
  decide

/-- C8, amended. Every address with which the main goroutine calls `server.NewServer` is
the value of `--addr` and contains at least one colon. -/
theorem C8_server_address_has_a_colon (w : World) (a b t : String) (n : Bool)
    (h : Event.newServer a b t n ∈ (main w).trace) :
    a = addrOf w ∧ containsColon a = true ∧ 1 ≤ colonCount a := by
  cases hwd : w.getwd with
  | none =>
    rw [main_of_getwd_none w hwd] at h
    simp at h
  | some workdir =>
    rw [main_of_getwd w workdir hwd] at h
    obtain ⟨h1, h2, _⟩ := action_newServer w workdir _ _ _ a b t n
      (startupTrace_all_isSetup w) h
    rw [← h1] at h2
    exact ⟨h1, h2, colonCount_pos a h2⟩

/-- Witness of C8: the run with `--addr [::1]:8090`. -/
theorem C8_server_address_has_a_colon_witness :
    Event.newServer "[::1]:8090" "/books" "/tmp/bookbrowser1" false ∈ (main wIPv6Addr).trace ∧
    ("[::1]:8090" = addrOf wIPv6Addr ∧ containsColon "[::1]:8090" = true ∧
      1 ≤ colonCount "[::1]:8090") :=
  ⟨by decide, C8_server_address_has_a_colon wIPv6Addr "[::1]:8090" "/books"
    "/tmp/bookbrowser1" false (by decide)⟩

/-- C9, counterexample. In a run where the stat of the content directory fails with an error
other than not-exist, the failure is not fatal: the main goroutine goes on to construct the
server and to serve. -/
theorem C9_counterexample :
    (osStat wBookDirDenied (fsAtAction wBookDirDenied) "/books").err = some StatErr.other ∧
    (osStat wBookDirDenied (fsAtAction wBookDirDenied) "/books").fi = none ∧
    Event.newServer ":8090" "/books" "/tmp/bookbrowser1" false ∈ (main wBookDirDenied).trace ∧
    (main wBookDirDenied).outcome = Outcome.serving := by
  decide

/-- C9, amended. In every run in which the main goroutine constructs the server, the stat of
the content directory did not report not-exist (it succeeded or failed with another error);
and a stat that reports not-exist is fatal, with the content-dir-missing diagnostic. -/
theorem C9_server_needs_content_dir_not_missing (w : World) (workdir : String)
    (hwd : w.getwd = some workdir) :
    ((∃ a b t n, Event.newServer a b t n ∈ (main w).trace) →
      (osStat w (fsAtAction w) (bookdirOf w workdir)).err ≠ some StatErr.notExist) ∧
    ((osStat w (fsAtAction w) (bookdirOf w workdir)).err = some StatErr.notExist →
      (main w).outcome = Outcome.fatal (Diag.bookDirMissing (bookdirOf w workdir)) ∧
      ∀ a b t n, Event.newServer a b t n ∉ (main w).trace) := by
  have key : (∃ a b t n, Event.newServer a b t n ∈ (main w).trace) →
      (osStat w (fsAtAction w) (bookdirOf w workdir)).err ≠ some StatErr.notExist := by
    rintro ⟨a, b, t, n, h⟩
    rw [main_of_getwd w workdir hwd] at h
    exact (action_newServer w workdir _ _ _ a b t n (startupTrace_all_isSetup w) h).2.2.1
  refine ⟨key, fun hmiss => ⟨?_, fun a b t n hmem => key ⟨a, b, t, n, hmem⟩ hmiss⟩⟩
  rw [main_of_getwd w workdir hwd]
  unfold action
  simp [hmiss]

/-- Witness of C9: the default run constructs the server after a successful stat, and the
run with `--bookdir /nobooks` is fatal. -/
theorem C9_server_needs_content_dir_not_missing_witness :
    (wDefault.getwd = some "/books" ∧
      (∃ a b t n, Event.newServer a b t n ∈ (main wDefault).trace) ∧
      (osStat wDefault (fsAtAction wDefault) (bookdirOf wDefault "/books")).err ≠
        some StatErr.notExist) ∧
    (wNoBookDir.getwd = some "/books" ∧
      (osStat wNoBookDir (fsAtAction wNoBookDir) (bookdirOf wNoBookDir "/books")).err =
        some StatErr.notExist ∧
      (main wNoBookDir).outcome =
        Outcome.fatal (Diag.bookDirMissing (bookdirOf wNoBookDir "/books"))) :=
  ⟨⟨by decide, ⟨":8090", "/books", "/tmp/bookbrowser1", false, by decide⟩,
      (C9_server_needs_content_dir_not_missing wDefault "/books" (by decide)).1
        ⟨":8090", "/books", "/tmp/bookbrowser1", false, by decide⟩⟩,
    ⟨by decide, by decide,
      ((C9_server_needs_content_dir_not_missing wNoBookDir "/books" (by decide)).2
        (by decide)).1⟩⟩

/-- C10, counterexample. In the run with `--addr 8090` the address failure is detected only
after `signal.Notify` has installed the termination handler: the trace of the fatal run
contains the installation, and the handler is set. -/
theorem C10_counterexample :
    (main wBadAddr).outcome = Outcome.fatal Diag.invalidAddress ∧
    Event.notify ∈ (main wBadAddr).trace ∧
    (main wBadAddr).handler =
      some { noRemoveTempDir := false, tempdir := "/tmp/bookbrowser1" } ∧
    (main wBadAddr).trace.getLast? = some Event.notify := by
  decide

/-- C10, amended. A run that fails on the content directory (missing, or not resolvable to
an absolute path) or on the resolution of the scratch path ends before `signal.Notify`: no
handler is installed. The content-dir-missing failure comes after one stat (that of the
content directory), the content-dir resolution failure after two (the first stat of the
scratch path, line 75, is done), the scratch-path resolution failure after three (the stat
and `os.Mkdir` step of lines 87-89 is done). A run that fails on an address without a colon
ends right after `signal.Notify`, with the handler installed, and before
`server.NewServer`. -/
theorem C10_failures_and_handler_installation (w : World) :
    (∀ b, (main w).outcome = Outcome.fatal (Diag.bookDirMissing b) →
      (main w).handler = none ∧ Event.notify ∉ (main w).trace ∧
      ((main w).trace.filter Event.isStat).length = 1) ∧
    ((main w).outcome = Outcome.fatal Diag.bookDirUnresolved →
      (main w).handler = none ∧ Event.notify ∉ (main w).trace ∧
      ((main w).trace.filter Event.isStat).length = 2) ∧
    ((main w).outcome = Outcome.fatal Diag.tempDirUnresolved →
      (main w).handler = none ∧ Event.notify ∉ (main w).trace ∧
      ((main w).trace.filter Event.isStat).length = 3) ∧
    ((main w).outcome = Outcome.fatal Diag.invalidAddress →
      (∃ h, (main w).handler = some h) ∧ (main w).trace.getLast? = some Event.notify ∧
      ∀ a b t n, Event.newServer a b t n ∉ (main w).trace) := by
  cases hwd : w.getwd with
  | none =>
    rw [main_of_getwd_none w hwd]
    simp
  | some workdir =>
    rw [main_of_getwd w workdir hwd]
    obtain ⟨h1, h2, h3, h4⟩ := action_fatal w workdir (deftempdirOf w workdir) (fsAtAction w)
      (startupTrace w)
    have hn : Event.notify ∉ startupTrace w := fun hm => by
      obtain ⟨d, hd⟩ := startupTrace_mem w _ hm
      simp at hd
    have hs : (startupTrace w).filter Event.isStat = [] := by
      rw [List.filter_eq_nil_iff]
      intro e he
      obtain ⟨d, rfl⟩ := startupTrace_mem w e he
      simp [Event.isStat]
    refine ⟨fun b hb => ?_, fun hb => ?_, fun hb => ?_, fun hb => ?_⟩
    · obtain ⟨ha, ht⟩ := h1 b hb
      rw [ht]
      refine ⟨ha, ?_, ?_⟩
      · simp [hn]
      · simp [List.filter_append, hs, List.filter_cons, Event.isStat]
    · obtain ⟨ha, ht⟩ := h2 hb
      rw [ht]
      refine ⟨ha, ?_, ?_⟩
      · simp [hn]
      · simp [List.filter_append, hs, List.filter_cons, Event.isStat]
    · obtain ⟨ha, ht⟩ := h3 hb
      rw [ht]
      refine ⟨ha, ?_, ?_⟩
      · simp [hn]
      · simp [List.filter_append, hs, List.filter_cons, Event.isStat]
    · obtain ⟨ha, ht⟩ := h4 hb
      rw [ht]
      refine ⟨ha, ?_, ?_⟩
      · simp [List.getLast?_append]
      · intro a b t n hm
        simp only [List.mem_append, List.mem_cons, List.mem_singleton, List.not_mem_nil,
          or_false] at hm
        rcases hm with hm | hm
        · obtain ⟨d, hd⟩ := startupTrace_mem w _ hm
          simp at hd
        · simp at hm

/-- Witness of C10: the run with `--bookdir /nobooks` fails before the installation, the
runs whose content directory or scratch path cannot be resolved fail before it too, and the
run with `--addr 8090` fails right after it. -/
theorem C10_failures_and_handler_installation_witness :
    ((main wNoBookDir).outcome = Outcome.fatal (Diag.bookDirMissing "/nobooks") ∧
      (main wNoBookDir).handler = none ∧ Event.notify ∉ (main wNoBookDir).trace) ∧
    ((main wBookUnresolved).outcome = Outcome.fatal Diag.bookDirUnresolved ∧
      (main wBookUnresolved).handler = none ∧ Event.notify ∉ (main wBookUnresolved).trace) ∧
    ((main wTempUnresolved).outcome = Outcome.fatal Diag.tempDirUnresolved ∧
      (main wTempUnresolved).handler = none ∧ Event.notify ∉ (main wTempUnresolved).trace) ∧
    ((main wBadAddr).outcome = Outcome.fatal Diag.invalidAddress ∧
      (main wBadAddr).trace.getLast? = some Event.notify) :=
  ⟨⟨by decide,
      ((C10_failures_and_handler_installation wNoBookDir).1 "/nobooks" (by decide)).1,
      ((C10_failures_and_handler_installation wNoBookDir).1 "/nobooks" (by decide)).2.1⟩,
    ⟨by decide,
      ((C10_failures_and_handler_installation wBookUnresolved).2.1 (by decide)).1,
      ((C10_failures_and_handler_installation wBookUnresolved).2.1 (by decide)).2.1⟩,
    ⟨by decide,
      ((C10_failures_and_handler_installation wTempUnresolved).2.2.1 (by decide)).1,
      ((C10_failures_and_handler_installation wTempUnresolved).2.2.1 (by decide)).2.1⟩,
    ⟨by decide,
      ((C10_failures_and_handler_installation wBadAddr).2.2.2 (by decide)).2.1⟩⟩

end BookBrowser
